import Mathlib

/-!
A shallow embedding of `vo2pandoc.py`, a converter from vim-outliner files to
pandoc markdown, together with theorems about its core recursive algorithm.

Lines are modelled as lists of characters.  Python's fallible operations
(indexing, comparison with `None`, sequence unpacking, `sys.exit` on the
unimplemented checkbox syntax) are modelled with an explicit error type; the
unbounded `while` loops and the recursion of `processSection` are modelled
with a fuel parameter (`Err.fuelOut` reports exhaustion, which never happens
for sufficient fuel).  Python's negative indexing (`lines[-1]` is the last
element) is modelled by `pyGet`.
-/

abbrev Line := List Char

/-- Ways a run of the converter can abort, mirroring the Python runtime errors
(`IndexError`, `TypeError`, `ValueError`) plus the explicit `sys.exit` on
checkbox lines and fuel exhaustion of the embedding. -/
inductive Err where
  | indexError
  | typeError
  | valueError
  | unsupportedSyntax
  | fuelOut
deriving DecidableEq, Repr

/-- Result of `processSection`: output lines, stopping index, collapsible flag. -/
abbrev SRes := List Line × Int × Bool

/-- Characters stripped by Python's `str.strip()`. -/
def isPySpace (c : Char) : Bool :=
  c == ' ' || c == '\t' || c == '\n' || c == '\r' || c == '\x0b' || c == '\x0c'

def lstrip (l : Line) : Line := l.dropWhile isPySpace

def rstrip (l : Line) : Line := (l.reverse.dropWhile isPySpace).reverse

/-- Python `line.strip()`. -/
def strip (l : Line) : Line := rstrip (lstrip l)

/-- Source function `getLevel`: counts leading tabs, returning at the first
non-tab character; falls off the loop (returns `None`) when the line consists
only of tabs. -/
def getLevel : Line → Option Nat
  | [] => none
  | c :: cs => if c = '\t' then (getLevel cs).map (· + 1) else some 0

/-- Python list indexing `lines[idx]`, including negative indices
(`lines[-k]` is `lines[len - k]`); `none` is an `IndexError`. -/
def pyGet (lines : List Line) (idx : Int) : Option Line :=
  if 0 ≤ idx then lines[idx.toNat]?
  else if 0 ≤ idx + lines.length then lines[(idx + lines.length).toNat]?
  else none

/-- Scan of `nextIdx`: first absolute position (counted by `i`) whose line is
non-blank, `-1` if none. -/
def findFrom : List Line → Nat → Int
  | [], _ => -1
  | l :: ls, i => if (strip l).length > 0 then (i : Int) else findFrom ls (i + 1)

/-- Source function `nextIdx`: next non-blank line strictly after `idx`, or the
sentinel `-1`; a negative `idx` is returned unchanged. -/
def nextIdx (idx : Int) (lines : List Line) : Int :=
  if idx < 0 then idx
  else findFrom (lines.drop (idx.toNat + 1)) (idx.toNat + 1)

/-- Source function `makeHeader`: `(level + 1) * '#' + line` (no separating
space). -/
def makeHeader (line : Line) (level : Nat) : Line :=
  List.replicate (level + 1) '#' ++ line

/-- Source function `renderHeaders` applied to genuine items (pairs of a label
line and its rendered content).  `getLevel` returning `None` would make
`makeHeader` add `None + 1`, a `TypeError`. -/
def renderHeaders : List (Line × List Line) → Except Err (List Line)
  | [] => .ok []
  | (line, content) :: rest =>
    match getLevel line with
    | none => .error .typeError
    | some lv =>
      match renderHeaders rest with
      | .error e => .error e
      | .ok tail => .ok (makeHeader (strip line) lv :: (content ++ tail))

def spaces4 : Line := [' ', ' ', ' ', ' ']

/-- Source function `renderList`: `"* "` plus the stripped label, each content
line indented by four spaces. -/
def renderList : List (Line × List Line) → List Line
  | [] => []
  | (line, content) :: rest =>
    ('*' :: ' ' :: strip line) :: (content.map (fun c => spaces4 ++ c) ++ renderList rest)

/-- Source function `renderHeaders` as dynamically reached on a list of plain strings (the
`renderHeaders(renderList(items))` call sites in `processSection`): Python's
`for [line, content] in items` unpacks each string into exactly two
characters, raising `ValueError` otherwise. -/
def renderHeadersDyn : List Line → Except Err (List Line)
  | [] => .ok []
  | s :: rest =>
    match s with
    | [a, b] =>
      match getLevel [a] with
      | none => .error .typeError
      | some lv =>
        match renderHeadersDyn rest with
        | .error e => .error e
        | .ok tail => .ok (makeHeader (strip [a]) lv :: [b] :: tail)
    | _ => .error .valueError

/-- Loop of `processBodyText`: consume consecutive lines whose stripped form
starts with `:`. -/
def bodyTextLoop : Nat → Int → List Line → Except Err (List Line × Int)
  | 0, _, _ => .error .fuelOut
  | fuel + 1, idx, lines =>
    if 0 ≤ idx then
      match pyGet lines idx with
      | none => .error .indexError
      | some l =>
        if (strip l).head? = some ':' then
          match bodyTextLoop fuel (nextIdx idx lines) lines with
          | .error e => .error e
          | .ok (rest, nidx) => .ok (strip ((strip l).drop 1) :: rest, nidx)
        else .ok ([], idx)
    else .ok ([], idx)

/-- Source function `processBodyText`: blank line, the stripped bodies, blank
line. -/
def processBodyText (fuel : Nat) (idx : Int) (lines : List Line) :
    Except Err (List Line × Int) :=
  match bodyTextLoop fuel idx lines with
  | .error e => .error e
  | .ok (mid, nidx) => .ok ([] :: (mid ++ [[]]), nidx)

/-- Loop of `processBodyPreText`: consume consecutive `;` lines, emitting
line-block syntax `"| "`. -/
def bodyPreTextLoop : Nat → Int → List Line → Except Err (List Line × Int)
  | 0, _, _ => .error .fuelOut
  | fuel + 1, idx, lines =>
    if 0 ≤ idx then
      match pyGet lines idx with
      | none => .error .indexError
      | some l =>
        if (strip l).head? = some ';' then
          match bodyPreTextLoop fuel (nextIdx idx lines) lines with
          | .error e => .error e
          | .ok (rest, nidx) =>
            .ok (('|' :: ' ' :: strip ((strip l).drop 1)) :: rest, nidx)
        else .ok ([], idx)
    else .ok ([], idx)

/-- Source function `processBodyPreText`. -/
def processBodyPreText (fuel : Nat) (idx : Int) (lines : List Line) :
    Except Err (List Line × Int) :=
  match bodyPreTextLoop fuel idx lines with
  | .error e => .error e
  | .ok (mid, nidx) => .ok ([] :: (mid ++ [[]]), nidx)

/-- Loop of `processUserText`: consume consecutive `>` lines verbatim
(stripped). -/
def userTextLoop : Nat → Int → List Line → Except Err (List Line × Int)
  | 0, _, _ => .error .fuelOut
  | fuel + 1, idx, lines =>
    if 0 ≤ idx then
      match pyGet lines idx with
      | none => .error .indexError
      | some l =>
        if (strip l).head? = some '>' then
          match userTextLoop fuel (nextIdx idx lines) lines with
          | .error e => .error e
          | .ok (rest, nidx) => .ok (strip l :: rest, nidx)
        else .ok ([], idx)
    else .ok ([], idx)

/-- Source function `processUserText`: the stripped lines, then one blank
line. -/
def processUserText (fuel : Nat) (idx : Int) (lines : List Line) :
    Except Err (List Line × Int) :=
  match userTextLoop fuel idx lines with
  | .error e => .error e
  | .ok (mid, nidx) => .ok (mid ++ [[]], nidx)

/-- Loop of `processUserPreText`: consume consecutive `<` lines, dropping the
marker character. -/
def userPreTextLoop : Nat → Int → List Line → Except Err (List Line × Int)
  | 0, _, _ => .error .fuelOut
  | fuel + 1, idx, lines =>
    if 0 ≤ idx then
      match pyGet lines idx with
      | none => .error .indexError
      | some l =>
        if (strip l).head? = some '<' then
          match userPreTextLoop fuel (nextIdx idx lines) lines with
          | .error e => .error e
          | .ok (rest, nidx) => .ok ((strip l).drop 1 :: rest, nidx)
        else .ok ([], idx)
    else .ok ([], idx)

def tildes : Line := ['~', '~', '~']

/-- Source function `processUserPreText`: a fenced block delimited by `~~~`. -/
def processUserPreText (fuel : Nat) (idx : Int) (lines : List Line) :
    Except Err (List Line × Int) :=
  match userPreTextLoop fuel idx lines with
  | .error e => .error e
  | .ok (mid, nidx) => .ok (tildes :: (mid ++ [tildes]), nidx)

/-- The separator row of `processTable`: `re.sub('[^\|]', "-", line)`. -/
def tableSep (l : Line) : Line := l.map (fun c => if c = '|' then c else '-')

/-- One iteration body of the `processTable` loop on the stripped line `s`
(which starts with `|`): a doubled pipe produces the rewritten header row and
its separator; accessing `s[1]` on a one-character line is an `IndexError`. -/
def tableLineOut (s : Line) : Except Err (List Line) :=
  match s[1]? with
  | none => .error .indexError
  | some c =>
    if c = '|' then
      .ok [('|' :: ' ' :: s.drop 2), tableSep ('|' :: ' ' :: s.drop 2)]
    else .ok [s]

/-- Loop of `processTable`: consume consecutive `|` lines. -/
def tableLoop : Nat → Int → List Line → Except Err (List Line × Int)
  | 0, _, _ => .error .fuelOut
  | fuel + 1, idx, lines =>
    if 0 ≤ idx then
      match pyGet lines idx with
      | none => .error .indexError
      | some l =>
        if (strip l).head? = some '|' then
          match tableLineOut (strip l) with
          | .error e => .error e
          | .ok outl =>
            match tableLoop fuel (nextIdx idx lines) lines with
            | .error e => .error e
            | .ok (rest, nidx) => .ok (outl ++ rest, nidx)
        else .ok ([], idx)
    else .ok ([], idx)

/-- Source function `processTable`: the converted rows, then one blank line. -/
def processTable (fuel : Nat) (idx : Int) (lines : List Line) :
    Except Err (List Line × Int) :=
  match tableLoop fuel idx lines with
  | .error e => .error e
  | .ok (mid, nidx) => .ok (mid ++ [[]], nidx)

/-- Dispatch of the five content-block branches of `processSection` on the
first stripped character; `none` for `[` (checkbox) and structural lines. -/
def contentStep (fuel : Nat) (start : Char) (idx : Int) (lines : List Line) :
    Option (Except Err (List Line × Int)) :=
  if start = ':' then some (processBodyText fuel idx lines)
  else if start = ';' then some (processBodyPreText fuel idx lines)
  else if start = '>' then some (processUserText fuel idx lines)
  else if start = '<' then some (processUserPreText fuel idx lines)
  else if start = '|' then some (processTable fuel idx lines)
  else none

/-- The flush of pending items performed when a content-block line interrupts
the group (`if not firstItem:` inside the content branches): the list renderer
when `makeList` holds, otherwise `renderHeaders` applied to the
already-list-rendered strings. -/
def flushMid (firstItem makeList : Bool) (items : List (Line × List Line)) :
    Except Err (List Line) :=
  if firstItem then .ok []
  else if makeList then .ok (renderList items)
  else renderHeadersDyn (renderList items)

/-- The final flush after the loop of `processSection`: the list renderer when
`makeList` holds, otherwise `renderHeaders` on the raw items. -/
def flushEnd (firstItem makeList : Bool) (items : List (Line × List Line))
    (out : List Line) : Except Err (List Line) :=
  if firstItem then .ok out
  else if makeList then .ok (out ++ renderList items)
  else
    match renderHeaders items with
    | .error e => .error e
    | .ok hs => .ok (out ++ hs)

/-- The `while curlevel > level and idx >= 0` loop of `processSection`, with
the loop state made explicit.  The recursive call of `processSection` in the
structural branch is inlined (its entry test followed by a fresh loop state);
`processSection` below is definitionally this entry test. -/
def sectionLoop : Nat → List Line → Int → List Line → Bool → Bool → Bool →
    List (Line × List Line) → Int → Nat → Except Err SRes
  | 0, _, _, _, _, _, _, _, _, _ => .error .fuelOut
  | fuel + 1, lines, level, out, isList, firstItem, makeList, items, idx, curlevel =>
    if (curlevel : Int) > level ∧ 0 ≤ idx then
      match pyGet lines idx with
      | none => .error .indexError
      | some curline =>
        match (strip curline).head? with
        | none => .error .indexError
        | some start =>
          match contentStep fuel start idx lines with
          | some r =>
            (match flushMid firstItem makeList items with
             | .error e => .error e
             | .ok flushed =>
               match r with
               | .error e => .error e
               | .ok (textout, nidx) =>
                 match pyGet lines nidx with
                 | none => .error .indexError
                 | some nl =>
                   match getLevel nl with
                   | none => .error .typeError
                   | some ncur =>
                     sectionLoop fuel lines level (out ++ flushed ++ textout) false true
                       makeList items nidx ncur)
          | none =>
            if start = '[' then .error .unsupportedSyntax
            else
              match
                ((match pyGet lines (nextIdx idx lines) with
                  | none => .error .indexError
                  | some cl =>
                    match getLevel cl with
                    | none => .error .typeError
                    | some ck =>
                      if (ck : Int) > (curlevel : Int) ∧ 0 ≤ nextIdx idx lines then
                        sectionLoop fuel lines (curlevel : Int) [] true true false []
                          (nextIdx idx lines) ck
                      else .ok ([[]], nextIdx idx lines, true)) : Except Err SRes)
              with
              | .error e => .error e
              | .ok (secout, nidx, isListItem) =>
                match pyGet lines nidx with
                | none => .error .indexError
                | some nl =>
                  match getLevel nl with
                  | none => .error .typeError
                  | some ncur =>
                    if firstItem then
                      sectionLoop fuel lines level out isList false isListItem
                        [(curline, secout)] nidx ncur
                    else if isListItem = false then
                      sectionLoop fuel lines level out false false false
                        (items ++ [(curline, secout)]) nidx ncur
                    else
                      sectionLoop fuel lines level out isList false makeList
                        (items ++ [(curline, secout)]) nidx ncur
    else
      match flushEnd firstItem makeList items out with
      | .error e => .error e
      | .ok out2 => .ok (out2, idx, isList)

/-- Source function `processSection(idx, lines, level)`: computes
`getLevel(lines[idx])` (a `TypeError` when it is `None`, an `IndexError` when
`lines[idx]` does not exist), enters the loop when the depth exceeds the
enclosing level, and otherwise returns the empty-section result: a single
blank line, the unchanged index and `collapsible = true`. -/
def processSection : Nat → Int → List Line → Int → Except Err SRes
  | 0, _, _, _ => .error .fuelOut
  | fuel + 1, idx, lines, level =>
    match pyGet lines idx with
    | none => .error .indexError
    | some l =>
      match getLevel l with
      | none => .error .typeError
      | some k =>
        if (k : Int) > level ∧ 0 ≤ idx then
          sectionLoop fuel lines level [] true true false [] idx k
        else .ok ([[]], idx, true)

/-- The whole conversion as performed by `main`: `processSection(0, lines, -1)`
and the output lines. -/
def vo2pandoc (fuel : Nat) (lines : List Line) : Except Err (List Line) :=
  match processSection fuel 0 lines (-1) with
  | .error e => .error e
  | .ok (out, _, _) => .ok out

/-! ## Helper lemmas -/

/-- A line consisting only of tab characters (including the empty line) makes
`getLevel` fall off its loop and return `none`. -/
theorem getLevel_of_all_tabs : ∀ {l : Line}, (∀ c ∈ l, c = '\t') → getLevel l = none := by
  intro l h
  induction l with
  | nil => rfl
  | cons c cs ih =>
    have hc : c = '\t' := h c (List.mem_cons_self c cs)
    have hcs : ∀ x ∈ cs, x = '\t' := fun x hx => h x (List.mem_cons_of_mem c hx)
    simp [getLevel, hc, ih hcs]

/-- Successful Python indexing returns an element of the list. -/
theorem pyGet_mem : ∀ {lines : List Line} {idx : Int} {l : Line},
    pyGet lines idx = some l → l ∈ lines := by
  intro lines idx l h
  unfold pyGet at h
  split at h
  · exact List.getElem?_mem h
  · split at h
    · exact List.getElem?_mem h
    · exact absurd h (by simp)

/-! ## Concrete inputs used by the claim theorems -/

/-- Input `"\t\t:a"`, `"\t:b"`: a body-text run that crosses back below the
enclosing level. -/
def linesC1 : List Line := [['\t', '\t', ':', 'a'], ['\t', ':', 'b']]

/-- Input `"\ta"`, `"\t\tb"`: structural lines only. -/
def linesC2 : List Line := [['\t', 'a'], ['\t', '\t', 'b']]

/-- Input `"\ta"`, `"\t\tb"`, `"\t\t\t:x"`: the only leaf subtree contains a
content block. -/
def linesC3 : List Line := [['\t', 'a'], ['\t', '\t', 'b'], ['\t', '\t', '\t', ':', 'x']]

/-- Input `"\ta"`, `"\t\t:x"`: a single child whose subtree contains body
text. -/
def linesC4 : List Line := [['\t', 'a'], ['\t', '\t', ':', 'x']]

/-- Input consisting of the single line `"\tHello"`. -/
def linesC5 : List Line := [['\t', 'H', 'e', 'l', 'l', 'o']]

/-- Input for C9: two non-collapsible structural siblings followed by a quoted
content line at the same level, which triggers the mid-group flush. -/
def linesC9 : List Line :=
  [['\t', 'a'], ['\t', '\t', ':', 'x'], ['\t', 'b'], ['\t', '\t', ':', 'y'], ['>', 'z']]

/-! ## Claim C3 -/

/-- Claim C3 counterexample: for the input `"\ta"`, `"\t\tb"`, `"\t\t\t:x"`,
every leaf subtree contains a content-block line, yet the output renders the
top-level label `a` as a list bullet `* a` rather than the heading `##a`:
the group around `a` reports `collapsible = true` upward because the seeding
of the group mode ignores the first child's flag. -/
theorem C3_counterexample :
    vo2pandoc 20 linesC3 =
      .ok [['*', ' ', 'a'],
           [' ', ' ', ' ', ' ', '#', '#', '#', 'b'],
           [' ', ' ', ' ', ' '],
           [' ', ' ', ' ', ' ', 'x'],
           [' ', ' ', ' ', ' ']] ∧
    ['*', ' ', 'a'] ∈
      [['*', ' ', 'a'],
       [' ', ' ', ' ', ' ', '#', '#', '#', 'b'],
       [' ', ' ', ' ', ' '],
       [' ', ' ', ' ', ' ', 'x'],
       [' ', ' ', ' ', ' ']] ∧
    ['#', '#', 'a'] ∉
      [['*', ' ', 'a'],
       [' ', ' ', ' ', ' ', '#', '#', '#', 'b'],
       [' ', ' ', ' ', ' '],
       [' ', ' ', ' ', ' ', 'x'],
       [' ', ' ', ' ', ' ']] :=
  ⟨rfl, by decide, by decide⟩

/-- Claim C3 (amended): whenever the heading renderer is the one applied to a
sibling group, each item yields an ATX-style heading of exactly
`depth + 1` hash characters prepended to the stripped label, immediately
followed by the item's rendered sub-content, in document order.  (The original
claim fails because an input where every leaf subtree contains a content block
can still be partly list-rendered; see the counterexample.) -/
theorem C3_headers_atx_level : ∀ (l : Line) (c : List Line)
    (rest : List (Line × List Line)) (k : Nat) (tail : List Line),
    getLevel l = some k → renderHeaders rest = .ok tail →
    renderHeaders ((l, c) :: rest) =
      .ok ((List.replicate (k + 1) '#' ++ strip l) :: (c ++ tail)) := by
  intro l c rest k tail hk ht
  simp [renderHeaders, hk, ht, makeHeader]

/-- Claim C3 witness: the heading renderer at a depth-1 label. -/
theorem C3_witness :
    renderHeaders [(['\t', 'a'], [['x']])] = .ok [['#', '#', 'a'], ['x']] :=
  C3_headers_atx_level ['\t', 'a'] [['x']] [] 1 [] rfl rfl

/-! ## Claim C5 -/

/-- Claim C5 counterexample: the input consisting of the single line
`"\tHello"` does not produce the heading `##Hello`; the group has no content
block, so it is rendered as a list. -/
theorem C5_counterexample :
    vo2pandoc 10 linesC5 =
      .ok [['*', ' ', 'H', 'e', 'l', 'l', 'o'], [' ', ' ', ' ', ' ']] ∧
    [['*', ' ', 'H', 'e', 'l', 'l', 'o'], [' ', ' ', ' ', ' ']] ≠
      [['#', '#', 'H', 'e', 'l', 'l', 'o']] :=
  ⟨rfl, by decide⟩

/-- Claim C5 (amended): for the single-line input `"\tHello"` the converter
outputs the list rendering: the bullet `* Hello` followed by the four-space
padding line coming from the empty section of the leaf; the heading renderer,
had it been chosen, would indeed have produced `##Hello` (depth + 1 = 2 hash
characters concatenated directly to the stripped label with no space), but a
group with no content block anywhere is rendered as a list. -/
theorem C5_single_line_list :
    vo2pandoc 10 linesC5 =
      .ok [['*', ' ', 'H', 'e', 'l', 'l', 'o'], [' ', ' ', ' ', ' ']] ∧
    getLevel ['\t', 'H', 'e', 'l', 'l', 'o'] = some 1 ∧
    makeHeader (strip ['\t', 'H', 'e', 'l', 'l', 'o']) 1 =
      ['#', '#', 'H', 'e', 'l', 'l', 'o'] :=
  ⟨rfl, rfl, rfl⟩

/-! ## Claim C6 -/

/-- Claim C6: for every table line whose stripped form begins with `||`, the
per-line body of the `processTable` loop produces exactly two output lines:
the line rewritten so that its first two characters become `| `, followed by
the separator row obtained from that rewritten line by replacing every
non-`|` character with `-`. -/
theorem C6_table_header_two_lines : ∀ (l rest : Line),
    strip l = '|' :: '|' :: rest →
    tableLineOut (strip l) =
      .ok [('|' :: ' ' :: rest), tableSep ('|' :: ' ' :: rest)] := by
  intro l rest h
  rw [h]
  simp [tableLineOut]

/-- Claim C6 witness: the header row `||a|b|`. -/
theorem C6_witness :
    tableLineOut (strip ['|', '|', 'a', '|', 'b', '|']) =
      .ok [['|', ' ', 'a', '|', 'b', '|'], ['|', '-', '-', '|', '-', '|']] :=
  C6_table_header_two_lines ['|', '|', 'a', '|', 'b', '|'] ['a', '|', 'b', '|'] rfl

/-! ## Claim C7 -/

/-- Claim C7: whenever `processSection` examines a reachable line (a line at
`idx` whose depth exceeds the enclosing level) whose first stripped character
is `[` (the Checkbox marker), the whole call fails with `unsupportedSyntax`;
since errors propagate through every enclosing call and `vo2pandoc` only
emits output on success, no output document is produced. -/
theorem C7_checkbox_fails : ∀ (fuel : Nat) (idx : Int) (lines : List Line)
    (level : Int) (l : Line) (k : Nat),
    pyGet lines idx = some l → getLevel l = some k →
    (k : Int) > level → 0 ≤ idx → (strip l).head? = some '[' →
    processSection (fuel + 1 + 1) idx lines level = .error .unsupportedSyntax := by
  intro fuel idx lines level l k hget hlev hgt hidx hhead
  have hcond : (k : Int) > level ∧ 0 ≤ idx := ⟨hgt, hidx⟩
  simp [processSection, hget, hlev, hcond, sectionLoop, hhead, contentStep]

/-- Claim C7 witness: the input line `[x]` at the top level. -/
theorem C7_witness :
    processSection 2 0 [['[', 'x', ']']] (-1) = .error .unsupportedSyntax :=
  C7_checkbox_fails 0 0 [['[', 'x', ']']] (-1) ['[', 'x', ']'] 0
    rfl rfl (by decide) (by decide) rfl

/-! ## Claim C9 -/

/-- Claim C9 counterexample: on an input whose non-collapsible sibling group is
interrupted mid-group by a content-block line, the conversion does not produce
output lines of a different shape — it aborts with a `ValueError`, because the
mid-group flush applies the heading renderer to the already-list-rendered
strings, and unpacking the string `* a` (three characters) into the two-element
pattern `[line, content]` fails. -/
theorem C9_counterexample :
    vo2pandoc 30 linesC9 = .error .valueError := rfl

/-- Claim C9 (amended): the mid-group flush of pending sibling items in a
non-collapsible group does apply the heading renderer to the
already-list-rendered items rather than to the raw labels, but this never
produces output lines: for any leading item with a non-blank label, the
rendered bullet string has more than two characters, so iterating
`renderHeaders` over the strings fails with a `ValueError` (Python sequence
unpacking), aborting the conversion — unlike the natural end-of-group flush,
which applies the heading renderer to the raw items and succeeds. -/
theorem C9_midflush_value_error : ∀ (l : Line) (c : List Line)
    (items : List (Line × List Line)),
    strip l ≠ [] →
    renderHeadersDyn (renderList ((l, c) :: items)) = .error .valueError := by
  intro l c items h
  match hs : strip l with
  | [] => exact absurd hs h
  | x :: xs => simp [renderList, hs, renderHeadersDyn]

/-- Claim C9 witness: the one-item group with label `a`. -/
theorem C9_witness :
    renderHeadersDyn (renderList [(['a'], [])]) = .error .valueError :=
  C9_midflush_value_error ['a'] [] [] (by decide)

/-! ## Claim C10 -/

/-- Claim C10: when the line `processSection` examines (the line at `idx`,
which by Python's negative indexing is the last line when `idx` is the
end-of-input sentinel `-1`) consists only of tab characters, `getLevel`
returns no value, and the depth comparison `curlevel > level` fails with a
`TypeError` instead of the processor returning an output sequence. -/
theorem C10_all_tabs_type_error : ∀ (fuel : Nat) (idx : Int) (lines : List Line)
    (level : Int) (l : Line),
    pyGet lines idx = some l → (∀ c ∈ l, c = '\t') →
    processSection (fuel + 1) idx lines level = .error .typeError := by
  intro fuel idx lines level l hget htabs
  simp [processSection, hget, getLevel_of_all_tabs htabs]

/-- Claim C10 witness: a file whose single line is one tab character. -/
theorem C10_witness :
    processSection 1 0 [['\t']] (-1) = .error .typeError :=
  C10_all_tabs_type_error 0 0 [['\t']] (-1) ['\t'] rfl (by decide)

/-! ## Claim C8 -/

/-- Claim C8 counterexample: the zero-line input does not yield a single blank
output line — the initial `processSection(0, lines, -1)` evaluates
`getLevel(lines[0])` on an empty list, an `IndexError`; a one-line wholly
blank input fails as well, at `curline.strip()[0]`. -/
theorem C8_counterexample :
    vo2pandoc 10 [] = .error .indexError ∧
    vo2pandoc 10 [[' ']] = .error .indexError :=
  ⟨rfl, rfl⟩

/-- Claim C8 (amended): a wholly empty input (no non-blank lines, including
the zero-line sequence) never yields the single blank output line: the
conversion always fails, with an `IndexError` (on `lines[0]` for the zero-line
sequence, or on `strip()[0]` when the first blank line has a non-tab
character) or with a `TypeError` (when the first line consists only of tabs,
so `getLevel` returns `None`).  The single-blank-line result of the
empty-section branch is reached only by recursive calls whose guard fails. -/
theorem C8_empty_input_errors : ∀ (fuel : Nat) (lines : List Line),
    (∀ l ∈ lines, strip l = []) →
    vo2pandoc (fuel + 1 + 1) lines = .error .indexError ∨
    vo2pandoc (fuel + 1 + 1) lines = .error .typeError := by
  intro fuel lines hblank
  match lines with
  | [] => exact Or.inl rfl
  | l :: ls =>
    have hl : strip l = [] := hblank l (List.mem_cons_self l ls)
    have hget : pyGet (l :: ls) 0 = some l := by norm_num [pyGet]
    match hlev : getLevel l with
    | none =>
      right
      simp [vo2pandoc, processSection, hget, hlev]
    | some k =>
      left
      have hcond : ((k : Int) > -1 ∧ (0 : Int) ≤ 0) := ⟨by omega, le_refl 0⟩
      simp [vo2pandoc, processSection, hget, hlev, hcond, sectionLoop, hl]

/-- Claim C8 witness: the zero-line input. -/
theorem C8_witness :
    vo2pandoc 2 [] = .error .indexError ∨ vo2pandoc 2 [] = .error .typeError :=
  C8_empty_input_errors 0 [] (by simp)

/-! ## Claim C4 -/

/-- Claim C4 counterexample: in the group containing the single structural
line `\ta` (whose subtree holds the body text `\t\t:x`), the recursively
processed child reports `collapsible = false`, yet the group's bottom-up mode
— the `collapsible` flag it returns — is `true`: the seeding of the local
rendering mode from the first child does not touch the returned flag, so the
mode the claim describes is not monotone in this sense. -/
theorem C4_counterexample :
    nextIdx 0 linesC4 = 1 ∧
    processSection 20 1 linesC4 1 = .ok ([[], ['x'], []], -1, false) ∧
    processSection 20 0 linesC4 (-1) =
      .ok ([['#', '#', 'a'], [], ['x'], []], -1, true) :=
  ⟨rfl, rfl, rfl⟩

/-- Claim C4 (amended): the invariant holds of the loop-carried `isList`
flag (the value returned as the group's `collapsible`): it is one-directional —
once it is `false`, every continuation of that group's processing (content
lines, further children, the final flush) keeps it `false`, and the group
returns `false`.  What fails in the original claim is the other flag: a first
child reporting `false` seeds only the local rendering mode (`makeList`) and
leaves the returned flag `true` (see the counterexample). -/
theorem C4_isList_monotone : ∀ (fuel : Nat) (lines : List Line) (level : Int)
    (out : List Line) (firstItem makeList : Bool)
    (items : List (Line × List Line)) (idx : Int) (curlevel : Nat)
    (o : List Line) (n : Int) (c : Bool),
    sectionLoop fuel lines level out false firstItem makeList items idx curlevel =
      .ok (o, n, c) →
    c = false := by
  intro fuel
  induction fuel with
  | zero =>
    intro lines level out firstItem makeList items idx curlevel o n c h
    exact absurd h (by simp [sectionLoop])
  | succ fuel ih =>
    intro lines level out firstItem makeList items idx curlevel o n c h
    rw [sectionLoop] at h
    split at h
    · -- loop body
      split at h
      · exact absurd h (by simp)
      · split at h
        · exact absurd h (by simp)
        · split at h
          · -- content-block branch
            split at h
            · exact absurd h (by simp)
            · split at h
              · exact absurd h (by simp)
              · split at h
                · exact absurd h (by simp)
                · split at h
                  · exact absurd h (by simp)
                  · exact ih _ _ _ _ _ _ _ _ _ _ _ h
          · -- checkbox / structural branch
            split at h
            · exact absurd h (by simp)
            · split at h
              · exact absurd h (by simp)
              · split at h
                · exact absurd h (by simp)
                · split at h
                  · exact absurd h (by simp)
                  · split at h
                    · exact ih _ _ _ _ _ _ _ _ _ _ _ h
                    · split at h
                      · exact ih _ _ _ _ _ _ _ _ _ _ _ h
                      · exact ih _ _ _ _ _ _ _ _ _ _ _ h
    · -- loop exit: the returned flag is the stored `isList = false`
      split at h
      · exact absurd h (by simp)
      · simp only [Except.ok.injEq, Prod.mk.injEq] at h
        exact h.2.2.symm

/-- Claim C4 witness: a loop state whose `isList` is already `false`
(a content block was seen) finishes with `collapsible = false`. -/
theorem C4_witness : (false : Bool) = false :=
  C4_isList_monotone 5 [['a']] (-1) [] true false [] 0 0
    [['*', ' ', 'a'], [' ', ' ', ' ', ' ']] (-1) false rfl

/-! ## Claim C1 -/

/-- Claim C1 counterexample: calling `processSection` at position 0 of
`"\t\t:a"`, `"\t:b"` with enclosing level 1 does not stop at the first line
whose depth is `≤ 1` (line 1, depth 1): the body-text renderer consumes every
consecutive `:` line regardless of depth, so the text `b` of line 1 is
consumed into the output and the returned stopping position is the
end-of-input sentinel `-1`, not 1. -/
theorem C1_counterexample :
    processSection 10 0 linesC1 1 = .ok ([[], ['a'], ['b'], []], -1, false) ∧
    pyGet linesC1 1 = some ['\t', ':', 'b'] ∧
    getLevel ['\t', ':', 'b'] = some 1 ∧
    ¬((1 : Int) > 1) ∧ (-1 : Int) ≠ 1 ∧
    ['b'] ∈ [([] : Line), ['a'], ['b'], []] :=
  ⟨rfl, rfl, rfl, by decide, by decide, by decide⟩

/-- Boolean form of the weakened stopping contract: the returned index is the
end sentinel (negative), or points at a line whose depth is defined and at
most the enclosing level. -/
def stopOk (lines : List Line) (level n : Int) : Bool :=
  if n < 0 then true
  else
    match pyGet lines n with
    | none => false
    | some l =>
      match getLevel l with
      | none => false
      | some k => decide ((k : Int) ≤ level)

/-- When the loop guard of `processSection` is false at a position with a
well-defined line and depth, that position satisfies the weakened stopping
contract. -/
theorem stopOk_of_guard_false : ∀ {lines : List Line} {level idx : Int}
    {l : Line} {k : Nat},
    pyGet lines idx = some l → getLevel l = some k →
    ¬((k : Int) > level ∧ 0 ≤ idx) →
    stopOk lines level idx = true := by
  intro lines level idx l k hget hlev hcond
  unfold stopOk
  by_cases hneg : idx < 0
  · simp [hneg]
  · have h0 : (0 : Int) ≤ idx := by omega
    have hle : (k : Int) ≤ level := by
      by_contra hgt
      exact hcond ⟨by omega, h0⟩
    simp [hneg, hget, hlev, hle]

/-- Stopping invariant of the `processSection` loop: a successful run stops at
a position that is the end sentinel or holds a line of depth at most the
enclosing level, provided the stored current position and depth describe an
actual line (as every caller guarantees). -/
theorem sectionLoop_stopOk : ∀ (fuel : Nat) (lines : List Line) (level : Int)
    (out : List Line) (isList firstItem makeList : Bool)
    (items : List (Line × List Line)) (idx : Int) (curlevel : Nat)
    (l : Line) (o : List Line) (n : Int) (c : Bool),
    pyGet lines idx = some l → getLevel l = some curlevel →
    sectionLoop fuel lines level out isList firstItem makeList items idx curlevel =
      .ok (o, n, c) →
    stopOk lines level n = true := by
  intro fuel
  induction fuel with
  | zero =>
    intro lines level out isList firstItem makeList items idx curlevel l o n c _ _ h
    exact absurd h (by simp [sectionLoop])
  | succ fuel ih =>
    intro lines level out isList firstItem makeList items idx curlevel l o n c hget hlev h
    rw [sectionLoop] at h
    split at h
    case isTrue hcond =>
      split at h
      · exact absurd h (by simp)
      · split at h
        · exact absurd h (by simp)
        · split at h
          · -- content-block branch
            split at h
            · exact absurd h (by simp)
            · split at h
              · exact absurd h (by simp)
              · split at h
                · exact absurd h (by simp)
                · rename_i nl hnl
                  split at h
                  · exact absurd h (by simp)
                  · rename_i ncur hncur
                    exact ih _ _ _ _ _ _ _ _ _ nl _ _ _ hnl hncur h
          · -- checkbox / structural branch
            split at h
            · exact absurd h (by simp)
            · split at h
              · exact absurd h (by simp)
              · split at h
                · exact absurd h (by simp)
                · rename_i nl hnl
                  split at h
                  · exact absurd h (by simp)
                  · rename_i ncur hncur
                    split at h
                    · exact ih _ _ _ _ _ _ _ _ _ nl _ _ _ hnl hncur h
                    · split at h
                      · exact ih _ _ _ _ _ _ _ _ _ nl _ _ _ hnl hncur h
                      · exact ih _ _ _ _ _ _ _ _ _ nl _ _ _ hnl hncur h
    case isFalse hcond =>
      split at h
      · exact absurd h (by simp)
      · simp only [Except.ok.injEq, Prod.mk.injEq] at h
        obtain ⟨-, hn, -⟩ := h
        subst hn
        exact stopOk_of_guard_false hget hlev hcond

/-- Claim C1 (amended): `processSection(pos, enclosingLevel)` does return the
rendered output, a stopping position and the group's collapsible flag, and the
stopping position is the end sentinel or a line of depth `≤ enclosingLevel` —
but it is not in general the *first* such line, and the call does not consume
exactly the lines of depth `> enclosingLevel`: the content-block renderers
consume maximal marker runs regardless of depth (see the counterexample, where
a body-text run swallows a line of smaller depth). -/
theorem C1_stops_at_shallow_line : ∀ (fuel : Nat) (idx : Int)
    (lines : List Line) (level : Int) (out : List Line) (n : Int) (c : Bool),
    processSection fuel idx lines level = .ok (out, n, c) →
    stopOk lines level n = true := by
  intro fuel idx lines level out n c h
  match fuel with
  | 0 => exact absurd h (by simp [processSection])
  | fuel + 1 =>
    rw [processSection] at h
    split at h
    · exact absurd h (by simp)
    · rename_i l hget
      split at h
      · exact absurd h (by simp)
      · rename_i k hlev
        split at h
        case isTrue hcond =>
          exact sectionLoop_stopOk fuel lines level [] true true false [] idx k
            l out n c hget hlev h
        case isFalse hcond =>
          simp only [Except.ok.injEq, Prod.mk.injEq] at h
          obtain ⟨-, hn, -⟩ := h
          subst hn
          exact stopOk_of_guard_false hget hlev hcond

/-- Claim C1 witness: a one-line document, whose processing stops at the end
sentinel. -/
theorem C1_witness : stopOk [['a']] (-1) (-1) = true :=
  C1_stops_at_shallow_line 10 0 [['a']] (-1)
    [['*', ' ', 'a'], [' ', ' ', ' ', ' ']] (-1) true rfl

/-! ## Claim C2 -/

/-- The six marker characters recognized at the start of a stripped line. -/
def isContentMarker (c : Char) : Bool :=
  c == ':' || c == ';' || c == '>' || c == '<' || c == '|' || c == '['

/-- A line is structural for the grouping algorithm when it is blank or its
first stripped character is none of the recognized markers. -/
def structuralLine (l : Line) : Bool :=
  match (strip l).head? with
  | none => true
  | some c => !(isContentMarker c)

/-- Bulleted-list shape of an output line: after any leading spaces, either
nothing at all (a padding line below an empty section) or a `* ` bullet. -/
def bulletShaped (l : Line) : Bool :=
  match l.dropWhile (fun c => c == ' ') with
  | [] => true
  | '*' :: ' ' :: _ => true
  | _ => false

/-- Modelled from the spec: the output shape claimed for structural-only
inputs — "a single nested bulleted list mirroring the indentation tree
exactly, with each depth adding four spaces of indentation to its children":
one `* `-bulleted line per non-blank input line, indented four spaces per
depth level beyond the first, and nothing else. -/
def specNestedList (lines : List Line) : List Line :=
  lines.filterMap (fun l =>
    if strip l = [] then none
    else
      match getLevel l with
      | none => none
      | some d => some (List.replicate (4 * (d - 1)) ' ' ++ ('*' :: ' ' :: strip l)))

/-- Claim C2 counterexample: for the structural-only input `"\ta"`, `"\t\tb"`
the output is not the nested bulleted list mirroring the indentation tree
exactly — beyond the two bullets it contains a third line of eight spaces,
the four-space-indented rendering of the blank line that the empty section of
the leaf `b` returns. -/
theorem C2_counterexample :
    vo2pandoc 10 linesC2 =
      .ok [['*', ' ', 'a'],
           [' ', ' ', ' ', ' ', '*', ' ', 'b'],
           [' ', ' ', ' ', ' ', ' ', ' ', ' ', ' ']] ∧
    specNestedList linesC2 =
      [['*', ' ', 'a'], [' ', ' ', ' ', ' ', '*', ' ', 'b']] ∧
    [['*', ' ', 'a'],
     [' ', ' ', ' ', ' ', '*', ' ', 'b'],
     [' ', ' ', ' ', ' ', ' ', ' ', ' ', ' ']] ≠
      [['*', ' ', 'a'], [' ', ' ', ' ', ' ', '*', ' ', 'b']] :=
  ⟨rfl, rfl, by decide⟩

theorem bulletShaped_bullet : ∀ (s : Line), bulletShaped ('*' :: ' ' :: s) = true :=
  fun _ => rfl

theorem bulletShaped_spaces4 : ∀ (l : Line),
    bulletShaped (spaces4 ++ l) = bulletShaped l := by
  intro l
  simp [bulletShaped, spaces4, List.dropWhile]

/-- Lines produced by the list renderer from bullet-shaped item contents are
bullet-shaped. -/
theorem renderList_bulletShaped : ∀ (items : List (Line × List Line)),
    (∀ p ∈ items, ∀ x ∈ p.2, bulletShaped x = true) →
    ∀ y ∈ renderList items, bulletShaped y = true := by
  intro items
  induction items with
  | nil => intro _ y hy; simp [renderList] at hy
  | cons p rest ih =>
    obtain ⟨line, content⟩ := p
    intro h y hy
    simp only [renderList, List.mem_cons, List.mem_append, List.mem_map] at hy
    rcases hy with rfl | (⟨x, hx, rfl⟩ | hy)
    · exact bulletShaped_bullet _
    · rw [bulletShaped_spaces4]
      exact h (line, content) (List.mem_cons_self _ _) x hx
    · exact ih (fun q hq => h q (List.mem_cons_of_mem _ hq)) y hy

/-- A character that is not a recognized marker selects no content-block
branch. -/
theorem contentStep_eq_none : ∀ {start : Char}, isContentMarker start = false →
    ∀ (fuel : Nat) (idx : Int) (lines : List Line),
    contentStep fuel start idx lines = none := by
  intro start h fuel idx lines
  have h1 : ¬(start = ':') := by intro e; subst e; simp [isContentMarker] at h
  have h2 : ¬(start = ';') := by intro e; subst e; simp [isContentMarker] at h
  have h3 : ¬(start = '>') := by intro e; subst e; simp [isContentMarker] at h
  have h4 : ¬(start = '<') := by intro e; subst e; simp [isContentMarker] at h
  have h5 : ¬(start = '|') := by intro e; subst e; simp [isContentMarker] at h
  simp [contentStep, h1, h2, h3, h4, h5]

/-- The final flush of a group whose running mode is still collapsible (the
only possibility in a structural-only document) emits bullet-shaped lines. -/
theorem flushEnd_structural : ∀ (firstItem makeList : Bool)
    (items : List (Line × List Line)) (out out2 : List Line),
    (∀ y ∈ out, bulletShaped y = true) →
    (∀ p ∈ items, ∀ x ∈ p.2, bulletShaped x = true) →
    (firstItem = false → makeList = true) →
    flushEnd firstItem makeList items out = .ok out2 →
    ∀ y ∈ out2, bulletShaped y = true := by
  intro firstItem makeList items out out2 hout hitems hfm h
  unfold flushEnd at h
  split at h
  · simp only [Except.ok.injEq] at h
    subst h
    exact hout
  · rename_i hfi
    have hfalse : firstItem = false := by revert hfi; cases firstItem <;> simp
    rw [hfm hfalse] at h
    simp only [if_true, Except.ok.injEq] at h
    subst h
    intro y hy
    rcases List.mem_append.mp hy with hy | hy
    · exact hout y hy
    · exact renderList_bulletShaped items hitems y hy

/-- Shape invariant of the `processSection` loop on structural-only documents:
a successful run adds only bullet-shaped lines (bullets after 4-space
indentation steps, or whitespace-only padding) and reports the group
collapsible. -/
theorem sectionLoop_structural : ∀ (fuel : Nat) (lines : List Line)
    (level : Int) (out : List Line) (isList firstItem makeList : Bool)
    (items : List (Line × List Line)) (idx : Int) (curlevel : Nat)
    (o : List Line) (n : Int) (c : Bool),
    (∀ l ∈ lines, structuralLine l = true) →
    (∀ y ∈ out, bulletShaped y = true) →
    (∀ p ∈ items, ∀ x ∈ p.2, bulletShaped x = true) →
    isList = true →
    (firstItem = false → makeList = true) →
    sectionLoop fuel lines level out isList firstItem makeList items idx curlevel =
      .ok (o, n, c) →
    (∀ y ∈ o, bulletShaped y = true) ∧ c = true := by
  intro fuel
  induction fuel with
  | zero =>
    intro lines level out isList firstItem makeList items idx curlevel o n c
      _ _ _ _ _ h
    exact absurd h (by simp [sectionLoop])
  | succ fuel ih =>
    intro lines level out isList firstItem makeList items idx curlevel o n c
      hlines hout hitems hIs hfm h
    subst hIs
    rw [sectionLoop] at h
    split at h
    case isTrue hcond =>
      split at h
      · exact absurd h (by simp)
      · rename_i curline hcur
        split at h
        · exact absurd h (by simp)
        · rename_i start hstart
          split at h
          · -- a content-block branch is impossible on a structural-only input
            rename_i r hcs
            have hstruct := hlines curline (pyGet_mem hcur)
            have hmark : isContentMarker start = false := by
              unfold structuralLine at hstruct
              rw [hstart] at hstruct
              simpa using hstruct
            rw [contentStep_eq_none hmark fuel idx lines] at hcs
            exact absurd hcs (by simp)
          · split at h
            · -- the checkbox branch is impossible as well
              rename_i hbr
              have hstruct := hlines curline (pyGet_mem hcur)
              have hmark : isContentMarker start = false := by
                unfold structuralLine at hstruct
                rw [hstart] at hstruct
                simpa using hstruct
              rw [hbr] at hmark
              exact absurd hmark (by decide)
            · split at h
              · exact absurd h (by simp)
              · rename_i secout nidx isListItem hchild
                have hres : (∀ y ∈ secout, bulletShaped y = true) ∧
                    isListItem = true := by
                  split at hchild
                  · exact absurd hchild (by simp)
                  · split at hchild
                    · exact absurd hchild (by simp)
                    · split at hchild
                      · exact ih _ _ _ _ _ _ _ _ _ _ _ _ hlines
                          (by intro y hy; simp at hy)
                          (by intro p hp; simp at hp) rfl
                          (fun hf => absurd hf (by decide)) hchild
                      · simp only [Except.ok.injEq, Prod.mk.injEq] at hchild
                        obtain ⟨hso, -, hil⟩ := hchild
                        subst hso
                        refine ⟨?_, hil.symm⟩
                        intro y hy
                        simp only [List.mem_singleton] at hy
                        subst hy
                        rfl
                split at h
                · exact absurd h (by simp)
                · rename_i nl hnl
                  split at h
                  · exact absurd h (by simp)
                  · rename_i ncur hncur
                    split at h
                    · -- first structural child of the group
                      exact ih _ _ _ _ _ _ _ _ _ _ _ _ hlines hout
                        (by intro p hp x hx
                            rw [List.mem_singleton] at hp
                            subst hp
                            exact hres.1 x hx)
                        rfl (fun _ => hres.2) h
                    · split at h
                      · -- a child reporting non-collapsible cannot occur
                        rename_i hne
                        rw [hres.2] at hne
                        exact absurd hne (by decide)
                      · -- later structural child
                        rename_i hfi _
                        have hff : firstItem = false := by
                          revert hfi; cases firstItem <;> simp
                        exact ih _ _ _ _ _ _ _ _ _ _ _ _ hlines hout
                          (by intro p hp x hx
                              rcases List.mem_append.mp hp with hp | hp
                              · exact hitems p hp x hx
                              · rw [List.mem_singleton] at hp
                                subst hp
                                exact hres.1 x hx)
                          rfl (fun _ => hfm hff) h
    case isFalse hcond =>
      split at h
      · exact absurd h (by simp)
      · rename_i out2 hflush
        simp only [Except.ok.injEq, Prod.mk.injEq] at h
        obtain ⟨h1, -, h3⟩ := h
        subst h1
        exact ⟨flushEnd_structural _ _ _ _ _ hout hitems hfm hflush, h3.symm⟩

/-- Claim C2 (amended): for every input containing only structural lines, a
successful conversion produces only bulleted-list-shaped lines: each output
line is, after its leading four-space indentation steps, either a `* ` bullet
or whitespace-only padding (the rendering of the blank line each leaf's empty
section returns), and the whole document reports `collapsible = true` inside —
the list renderer is the only group renderer used.  The original claim's
"mirroring the indentation tree exactly" fails because of the padding lines
(see the counterexample). -/
theorem C2_structural_only_bullets : ∀ (fuel : Nat) (lines out : List Line),
    (∀ l ∈ lines, structuralLine l = true) →
    vo2pandoc fuel lines = .ok out →
    out.all bulletShaped = true := by
  intro fuel lines out hlines h
  rw [List.all_eq_true]
  unfold vo2pandoc at h
  cases hres : processSection fuel 0 lines (-1) with
  | error e =>
    rw [hres] at h
    exact absurd h (by simp)
  | ok res =>
    obtain ⟨o, n, c⟩ := res
    rw [hres] at h
    simp only [Except.ok.injEq] at h
    subst h
    match fuel, hres with
    | 0, hres => exact absurd hres (by simp [processSection])
    | fuel + 1, hres =>
      rw [processSection] at hres
      split at hres
      · exact absurd hres (by simp)
      · rename_i l hget
        split at hres
        · exact absurd hres (by simp)
        · rename_i k hlev
          split at hres
          · exact (sectionLoop_structural fuel lines (-1) [] true true false [] 0 k
              o n c hlines (by intro y hy; simp at hy) (by intro p hp; simp at hp)
              rfl (fun hf => absurd hf (by decide)) hres).1
          · simp only [Except.ok.injEq, Prod.mk.injEq] at hres
            obtain ⟨h1, -, -⟩ := hres
            subst h1
            intro y hy
            simp only [List.mem_singleton] at hy
            subst hy
            rfl

/-- Claim C2 witness: the structural-only document `"\ta"`. -/
theorem C2_witness :
    ([['*', ' ', 'a'], [' ', ' ', ' ', ' ']] : List Line).all bulletShaped = true :=
  C2_structural_only_bullets 10 [['\t', 'a']]
    [['*', ' ', 'a'], [' ', ' ', ' ', ' ']] (by decide) rfl
